import Mathlib

/-!
Verification of the data-access and query-construction layer of the
htmx-fiber book/account CRUD application (`src/main.go`), as a shallow
embedding in Lean 4.

The SQLite store is modelled as a list of `Book` rows (the `books` table).
Each repository method of `SQLiteRepository` is translated twice where the
claims need it:
  * a *query-text* level mirroring the Go code's SQL string and positional
    argument construction (`strings.Repeat`, `strings.Join`, dynamic
    placeholders), and
  * a *state* level giving the SQL statements' effect on the table,
    following SQLite semantics (UPDATE/DELETE with `WHERE id = ?` or
    `WHERE id IN (...)`, `SELECT ... ORDER BY id LIMIT ? OFFSET ?`,
    `SELECT COUNT(*)`, `INSERT` with autoincrement rowid).

Go `int` identifiers are modelled as `Int`; row counts, limits and offsets
(always non-negative at every call site) as `Nat`. SQLite's `LIKE` operator
is modelled by an executable pattern matcher `likeM` supporting the `%` and
`_` wildcards; we model the case-sensitive variant (the spec leaves the
case sensitivity of the substring predicate open).
-/

/-- A row of the `books` table / the Go `Book` struct. -/
structure Book where
  ID : Int
  Title : String
  HasSales : Bool
deriving DecidableEq, Repr

/-- The Go `Account` struct (read-only in this core). -/
structure Account where
  ID : Int
  Name : String
  Email : String
deriving DecidableEq, Repr

/-- Result of `ListBooks`: one page of rows plus the pre-pagination match
count. -/
structure PaginatedBooks where
  Books : List Book
  TotalCount : Nat
deriving DecidableEq, Repr

/-- Template pagination data computed by the `ListBooks` handler. -/
structure Pagination where
  CurrentPage : Nat
  TotalPages : Nat
  HasPrev : Bool
  HasNext : Bool
  PrevPage : Nat
  NextPage : Nat
deriving DecidableEq, Repr

/-- A positional SQL parameter value, as bound by `ExecContext` /
`QueryContext`. -/
inductive SqlValue where
  | int (i : Int)
  | str (s : String)
  | bool (b : Bool)
deriving DecidableEq, Repr

/-- Go's `strings.Repeat s n`: `n` copies of `s` concatenated. -/
def repeatStr (s : String) : Nat → String
  | 0 => ""
  | n + 1 => s ++ repeatStr s n

/-- SQLite `LIKE` pattern matching over character lists: `%` matches any
sequence (tried as every suffix of the text), `_` matches any single
character, anything else matches itself (case-sensitive variant). -/
def likeM : List Char → List Char → Bool
  | [], ts => ts.isEmpty
  | p :: ps, ts =>
      if p == '%' then ts.tails.any (fun t => likeM ps t)
      else
        match ts with
        | [] => false
        | t :: ts' => (p == t || p == '_') && likeM ps ts'

/-- `leadMatch s t`: the character list `s` occurs at the head of `t`. -/
def leadMatch : List Char → List Char → Bool
  | [], _ => true
  | _ :: _, [] => false
  | c :: s, d :: t => (c == d) && leadMatch s t

/-- `insideMatch s t`: the character list `s` occurs contiguously inside
`t` (substring containment). -/
def insideMatch (s : List Char) : List Char → Bool
  | [] => leadMatch s []
  | d :: t => leadMatch s (d :: t) || insideMatch s t

/-- One WHERE-clause fragment produced by `ListBooks`' dynamic query
builder (src/main.go lines 82–94), with its SQL text and its row
denotation kept together. -/
inductive Clause where
  | titleLike (pat : String)
  | hasSalesEq (v : Bool)
deriving DecidableEq, Repr

/-- SQL text of one clause, exactly as appended to `whereClauses` in the
Go code (`title LIKE ?`, `has_sales = 1`, `has_sales = 0`). -/
def Clause.sqlText : Clause → String
  | .titleLike _ => "title LIKE ?"
  | .hasSalesEq true => "has_sales = 1"
  | .hasSalesEq false => "has_sales = 0"

/-- Positional parameters contributed by one clause (only the LIKE clause
binds a parameter; the has_sales comparisons are literals in the text). -/
def Clause.sqlArgs : Clause → List SqlValue
  | .titleLike pat => [.str pat]
  | .hasSalesEq _ => []

/-- SQLite row semantics of one clause. -/
def Clause.holds (b : Book) : Clause → Bool
  | .titleLike pat => likeM pat.data b.Title.data
  | .hasSalesEq v => b.HasSales == v

/-- The clause list built by `ListBooks` (src/main.go lines 82–94): a
`title LIKE ?` clause with pattern `"%" + search + "%"` when `search` is
non-empty, then `has_sales = 1` for filter `on_sale`, `has_sales = 0` for
`not_on_sale`, nothing otherwise. -/
def buildClauses (search filter : String) : List Clause :=
  (if search ≠ "" then [Clause.titleLike ("%" ++ search ++ "%")] else []) ++
    (if filter == "on_sale" then [Clause.hasSalesEq true]
     else if filter == "not_on_sale" then [Clause.hasSalesEq false]
     else [])

/-- The argument list accumulated alongside the clauses (src/main.go
lines 85–88): the LIKE pattern when search is non-empty. -/
def whereArgs (search filter : String) : List SqlValue :=
  (buildClauses search filter).flatMap Clause.sqlArgs

/-- The `whereStr` computed in src/main.go lines 96–99: empty when no
clause, otherwise `" WHERE "` followed by the clauses joined with
`" AND "`. -/
def whereStr (search filter : String) : String :=
  match buildClauses search filter with
  | [] => ""
  | cs => " WHERE " ++ String.intercalate " AND " (cs.map Clause.sqlText)

/-- The COUNT query text (src/main.go line 103). -/
def countQuery (search filter : String) : String :=
  "SELECT COUNT(*) FROM books" ++ whereStr search filter

/-- The paged SELECT query text (src/main.go line 110). -/
def listQuery (search filter : String) : String :=
  "SELECT id, title, has_sales FROM books" ++ whereStr search filter ++
    " ORDER BY id LIMIT ? OFFSET ?"

/-- The paged SELECT's argument list (src/main.go line 111): the shared
predicate arguments followed by limit and offset. -/
def listArgs (search filter : String) (limit offset : Nat) : List SqlValue :=
  whereArgs search filter ++ [.int limit, .int offset]

/-- A row satisfies the built WHERE predicate: the conjunction (SQL `AND`)
of all built clauses. -/
def rowMatches (search filter : String) (b : Book) : Bool :=
  (buildClauses search filter).all (Clause.holds b)

/-- Insertion into a list sorted by ascending id. -/
def insertById (b : Book) : List Book → List Book
  | [] => [b]
  | c :: cs => if b.ID ≤ c.ID then b :: c :: cs else c :: insertById b cs

/-- `ORDER BY id`: the table rows sorted by ascending identifier
(insertion sort; the claims only use that this is a permutation). -/
def sortById : List Book → List Book
  | [] => []
  | b :: bs => insertById b (sortById bs)

/-- `GetBook` (src/main.go lines 71–78): `SELECT ... WHERE id = ?`,
surfacing the first matching row or the store's no-rows condition
(`none`). -/
def GetBook (rows : List Book) (id : Int) : Option Book :=
  rows.find? (fun b => b.ID == id)

/-- `ListBooks` (src/main.go lines 80–132): COUNT over the built
predicate, then the matching rows ordered by id, dropped by `offset` and
capped at `limit`. -/
def ListBooks (rows : List Book) (limit offset : Nat)
    (search filter : String) : PaginatedBooks :=
  let matched := rows.filter (rowMatches search filter)
  { Books := ((sortById matched).drop offset).take limit
    TotalCount := matched.length }

/-- `UpdateBook` (src/main.go lines 161–164): the effect of
`UPDATE books SET title = ?, has_sales = ? WHERE id = ?` — every row whose
id equals the entity's id gets the entity's title and has_sales; all other
rows are untouched. Zero matching rows is not an error. -/
def UpdateBook (rows : List Book) (book : Book) : List Book :=
  rows.map (fun r =>
    if r.ID == book.ID then
      { ID := r.ID, Title := book.Title, HasSales := book.HasSales }
    else r)

/-- The `IN (?,...)` fragment built for `n` ids: `"(?"` then `n - 1`
copies of `",?"` then `")"` (src/main.go lines 173 and 208). -/
def inClause (n : Nat) : String :=
  "(?" ++ repeatStr ",?" (n - 1) ++ ")"

/-- Query text of `BulkUpdateBooksSalesStatus` (src/main.go line 173),
a function of the id count only. -/
def bulkSalesQuery (n : Nat) : String :=
  "UPDATE books SET has_sales = ? WHERE id IN " ++ inClause n

/-- Argument list of `BulkUpdateBooksSalesStatus` (src/main.go lines
176–180): the status first, then every id in order. -/
def bulkSalesArgs (ids : List Int) (status : Bool) : List SqlValue :=
  .bool status :: ids.map SqlValue.int

/-- Query text of `DeleteBooks` (src/main.go line 208). -/
def deleteQuery (n : Nat) : String :=
  "DELETE FROM books WHERE id IN " ++ inClause n

/-- Argument list of `DeleteBooks` (src/main.go lines 211–214). -/
def deleteArgs (ids : List Int) : List SqlValue :=
  ids.map SqlValue.int

/-- State effect of `BulkUpdateBooksSalesStatus` (src/main.go lines
166–185): empty ids returns immediately; otherwise the single UPDATE sets
has_sales to `status` on exactly the rows whose id is in `ids`. -/
def BulkUpdateBooksSalesStatus (rows : List Book) (ids : List Int)
    (status : Bool) : List Book :=
  if ids = [] then rows
  else rows.map (fun b =>
    if b.ID ∈ ids then { b with HasSales := status } else b)

/-- The statements `BulkUpdateBooksSalesStatus` sends to the store: none
for empty ids, exactly one otherwise. -/
def bulkSalesStmts (ids : List Int) (status : Bool) :
    List (String × List SqlValue) :=
  if ids = [] then []
  else [(bulkSalesQuery ids.length, bulkSalesArgs ids status)]

/-- State effect of `DeleteBooks` (src/main.go lines 202–219): empty ids
returns immediately; otherwise the single DELETE removes exactly the rows
whose id is in `ids`. -/
def DeleteBooks (rows : List Book) (ids : List Int) : List Book :=
  if ids = [] then rows
  else rows.filter (fun b => !(b.ID ∈ ids : Bool))

/-- The statements `DeleteBooks` sends to the store: none for empty ids,
exactly one otherwise. -/
def deleteStmts (ids : List Int) : List (String × List SqlValue) :=
  if ids = [] then []
  else [(deleteQuery ids.length, deleteArgs ids)]

/-- Store state for `CreateBook`: the table rows plus the next
autoincrement rowid. -/
structure DBState where
  rows : List Book
  nextId : Int
deriving DecidableEq, Repr

/-- `CreateBook` (src/main.go lines 187–200): INSERT title and has_sales,
the store assigns the next rowid, and the entity comes back with that id
populated (`LastInsertId`). -/
def CreateBook (s : DBState) (book : Book) : DBState × Book :=
  let nb : Book := { ID := s.nextId, Title := book.Title
                     HasSales := book.HasSales }
  ({ rows := s.rows ++ [nb], nextId := s.nextId + 1 }, nb)

/-- One step of the `BulkUpdateBooks` loop body: the prepared
`UPDATE books SET title = ?, has_sales = ? WHERE id = ?` executed for one
entity against the transaction-local state. -/
def applyBookUpdate (tx : List Book) (e : Book) : List Book :=
  UpdateBook tx e

/-- The `BulkUpdateBooks` loop (src/main.go lines 234–239) over the
transaction state, with an oracle `failAt` giving the index (if any) at
which the store rejects the statement; an error aborts the loop. -/
def bulkLoop (failAt : Option Nat) : Nat → List Book → List Book →
    Except Unit (List Book)
  | _, tx, [] => .ok tx
  | idx, tx, e :: rest =>
      if failAt = some idx then .error ()
      else bulkLoop failAt (idx + 1) (applyBookUpdate tx e) rest

/-- `BulkUpdateBooks` (src/main.go lines 221–242): one transaction around
the whole batch. If the loop finishes, `tx.Commit()` publishes the
transaction state; if any statement fails, the deferred `tx.Rollback()`
leaves the store unchanged and the error is returned to the caller. -/
def BulkUpdateBooks (rows : List Book) (entities : List Book)
    (failAt : Option Nat) : List Book × Except Unit Unit :=
  match bulkLoop failAt 0 rows entities with
  | .ok tx => (tx, .ok ())
  | .error e => (rows, .error e)

/-- The pagination computation of the `ListBooks` handler (src/main.go
lines 523–531): `totalPages = ceil(totalCount / pageSize)` (the Go code's
`int(math.Ceil(float64(totalCount) / float64(pageSize)))`, exact for the
row counts at hand), has-prev/has-next comparisons and unclamped
previous/next page numbers. The handler clamps `page` to at least 1
before this computation. -/
def handlerPagination (totalCount pageSize page : Nat) : Pagination :=
  let totalPages := (totalCount + pageSize - 1) / pageSize
  { CurrentPage := page
    TotalPages := totalPages
    HasPrev := page > 1
    HasNext := page < totalPages
    PrevPage := page - 1
    NextPage := page + 1 }

/-! ## Helper lemmas -/

theorem length_insertById (b : Book) (l : List Book) :
    (insertById b l).length = l.length + 1 := by
  induction l with
  | nil => rfl
  | cons c cs ih =>
    unfold insertById
    split
    · simp
    · simp [ih]

theorem mem_insertById {a b : Book} {l : List Book} :
    a ∈ insertById b l ↔ a = b ∨ a ∈ l := by
  induction l with
  | nil => simp [insertById]
  | cons c cs ih =>
    unfold insertById
    split
    · simp [List.mem_cons]
    · simp only [List.mem_cons, ih]
      tauto

theorem length_sortById (l : List Book) : (sortById l).length = l.length := by
  induction l with
  | nil => rfl
  | cons b bs ih => simp [sortById, length_insertById, ih]

theorem mem_sortById {a : Book} {l : List Book} :
    a ∈ sortById l ↔ a ∈ l := by
  induction l with
  | nil => simp [sortById]
  | cons b bs ih => simp [sortById, mem_insertById, ih]

theorem count_q_repeatStr (m : Nat) :
    (repeatStr ",?" m).data.count '?' = m := by
  induction m with
  | zero => rfl
  | succ k ih =>
    show ((",?" ++ repeatStr ",?" k).data.count '?') = k + 1
    rw [String.data_append, List.count_append, ih]
    have h1 : (",?".data.count '?') = 1 := by decide
    omega

theorem count_q_inClause (m : Nat) :
    (inClause (m + 1)).data.count '?' = m + 1 := by
  show ((("(?" ++ repeatStr ",?" (m + 1 - 1)) ++ ")").data.count '?') = m + 1
  rw [Nat.add_sub_cancel, String.data_append, String.data_append,
    List.count_append, List.count_append, count_q_repeatStr]
  have h1 : ("(?".data.count '?') = 1 := by decide
  have h2 : (")".data.count '?') = 0 := by decide
  omega

theorem noDigit_of_all {l : List Char}
    (hl : l.all (fun c => !c.isDigit) = true) : ∀ c ∈ l, c.isDigit = false := by
  intro c hc
  simpa using List.all_eq_true.1 hl c hc

theorem noDigit_repeatStr (m : Nat) :
    ∀ c ∈ (repeatStr ",?" m).data, c.isDigit = false := by
  induction m with
  | zero => intro c hc; cases hc
  | succ k ih =>
    intro c hc
    rw [show repeatStr ",?" (k + 1) = ",?" ++ repeatStr ",?" k from rfl,
      String.data_append] at hc
    rcases List.mem_append.1 hc with h | h
    · simp [show (",?" : String).data = [',', '?'] from rfl] at h
      rcases h with rfl | rfl <;> decide
    · exact ih c h

theorem bulkLoop_ok (failAt : Option Nat) :
    ∀ (entities : List Book) (idx : Nat) (tx : List Book),
      (∀ j, idx ≤ j → j < idx + entities.length → failAt ≠ some j) →
      bulkLoop failAt idx tx entities = .ok (entities.foldl applyBookUpdate tx) := by
  intro entities
  induction entities with
  | nil => intro idx tx _; rfl
  | cons e rest ih =>
    intro idx tx h
    unfold bulkLoop
    rw [if_neg (h idx le_rfl (by simp))]
    exact ih (idx + 1) (applyBookUpdate tx e)
      (fun j h1 h2 => h j (by omega) (by simp at h2 ⊢; omega))

theorem bulkLoop_err (failAt : Option Nat) :
    ∀ (entities : List Book) (idx : Nat) (tx : List Book) (j : Nat),
      failAt = some j → idx ≤ j → j < idx + entities.length →
      bulkLoop failAt idx tx entities = .error () := by
  intro entities
  induction entities with
  | nil =>
    intro idx tx j _ h1 h2
    simp at h2
    omega
  | cons e rest ih =>
    intro idx tx j hj h1 h2
    unfold bulkLoop
    by_cases hidx : j = idx
    · rw [if_pos (by rw [hj, hidx])]
    · rw [if_neg (by rw [hj]; simp; omega)]
      exact ih (idx + 1) (applyBookUpdate tx e) j hj (by omega)
        (by simp at h2 ⊢; omega)

theorem any_congr_books {l : List (List Char)} {p q : List Char → Bool}
    (h : ∀ a ∈ l, p a = q a) : l.any p = l.any q := by
  induction l with
  | nil => rfl
  | cons a as ih =>
    simp only [List.any_cons, h a (List.mem_cons_self a as),
      ih (fun x hx => h x (List.mem_cons_of_mem a hx))]

theorem likeM_cons (p : Char) (ps ts : List Char) :
    likeM (p :: ps) ts =
      if p == '%' then ts.tails.any (fun t => likeM ps t)
      else
        match ts with
        | [] => false
        | t :: ts' => (p == t || p == '_') && likeM ps ts' := rfl

/-- A wildcard-free literal pattern followed by `%` matches exactly the
texts that start with the literal. -/
theorem likeM_lit_pct (s : List Char) :
    ∀ t : List Char, '%' ∉ s → '_' ∉ s →
      likeM (s ++ ['%']) t = leadMatch s t := by
  induction s with
  | nil =>
    intro t _ _
    show likeM ['%'] t = leadMatch [] t
    rw [likeM_cons, if_pos (show (('%' : Char) == '%') = true from rfl)]
    show (t.tails.any fun u => likeM [] u) = true
    exact List.any_eq_true.2 ⟨[], by simp [List.mem_tails], rfl⟩
  | cons c s' ih =>
    intro t hs1 hs2
    have hc1 : c ≠ '%' := fun hc => hs1 (hc ▸ List.mem_cons_self c s')
    have hc2 : c ≠ '_' := fun hc => hs2 (hc ▸ List.mem_cons_self c s')
    have hs1' : '%' ∉ s' := fun hx => hs1 (List.mem_cons_of_mem c hx)
    have hs2' : '_' ∉ s' := fun hx => hs2 (List.mem_cons_of_mem c hx)
    have hb1 : ¬((c == '%') = true) := fun hb => hc1 (by simpa using hb)
    have hb2 : (c == '_') = false := by simp [hc2]
    cases t with
    | nil =>
      show likeM (c :: (s' ++ ['%'])) [] = leadMatch (c :: s') []
      rw [likeM_cons, if_neg hb1]
      rfl
    | cons d t' =>
      show likeM (c :: (s' ++ ['%'])) (d :: t') = leadMatch (c :: s') (d :: t')
      rw [likeM_cons, if_neg hb1]
      show ((c == d || c == '_') && likeM (s' ++ ['%']) t') =
        ((c == d) && leadMatch s' t')
      rw [ih t' hs1' hs2', hb2, Bool.or_false]

theorem insideMatch_eq_any_tails (s : List Char) :
    ∀ t : List Char, t.tails.any (leadMatch s) = insideMatch s t := by
  intro t
  induction t with
  | nil => simp [insideMatch]
  | cons d t' ih => simp [List.tails_cons, insideMatch, ih]

/-- The pattern `%` ++ literal ++ `%` (the one `ListBooks` builds from a
non-empty search) matches exactly the texts containing the literal as a
substring, provided the literal itself has no wildcard characters. -/
theorem likeM_both_fuzzy (s : List Char) (hs1 : '%' ∉ s) (hs2 : '_' ∉ s)
    (t : List Char) :
    likeM ('%' :: (s ++ ['%'])) t = insideMatch s t := by
  rw [likeM_cons, if_pos (show (('%' : Char) == '%') = true from rfl)]
  rw [any_congr_books (fun u _ => likeM_lit_pct s u hs1 hs2)]
  exact insideMatch_eq_any_tails s t

theorem filterPart_all (filter : String) (b : Book) :
    ((if filter == "on_sale" then [Clause.hasSalesEq true]
      else if filter == "not_on_sale" then [Clause.hasSalesEq false]
      else []) : List Clause).all (Clause.holds b) =
    (if filter == "on_sale" then b.HasSales
     else if filter == "not_on_sale" then !b.HasSales else true) := by
  by_cases hf1 : (filter == "on_sale") = true
  · simp [hf1, Clause.holds]
  · by_cases hf2 : (filter == "not_on_sale") = true
    · simp [hf1, hf2, Clause.holds]
    · simp [hf1, hf2]

/-! ## Claim theorems -/

/-- C10: with `total_count = 0`, `page_size = 5`, `current_page = 1` the
handler's pagination computation yields `total_pages = 0`,
`has_prev = false` and `has_next = false` (the code resolves the spec's
open question in favour of `total_pages = 0`, and has-next stays
consistent with that choice). -/
theorem pagination_zero_total :
    (handlerPagination 0 5 1).TotalPages = 0 ∧
      (handlerPagination 0 5 1).HasPrev = false ∧
      (handlerPagination 0 5 1).HasNext = false := by
  decide

/-- C6: for every `total_count ≥ 0`, `page_size > 0`, `current_page ≥ 1`,
the handler pagination computation yields `total_pages` equal to the
ceiling of `total_count / page_size` (characterised as the least `k` with
`total_count ≤ page_size * k`), `has_prev` iff `current_page > 1`,
`has_next` iff `current_page < total_pages`, and the unclamped
previous/next page numbers `current_page - 1` and `current_page + 1`; in
particular `total_count = 12`, `page_size = 5`, `current_page = 2` gives
`(3, true, true, 1, 3)`. -/
theorem pagination_metadata_spec (totalCount pageSize page : Nat)
    (hps : 0 < pageSize) (hpage : 1 ≤ page) :
    (totalCount ≤ pageSize * (handlerPagination totalCount pageSize page).TotalPages ∧
      ∀ k, totalCount ≤ pageSize * k →
        (handlerPagination totalCount pageSize page).TotalPages ≤ k) ∧
    ((handlerPagination totalCount pageSize page).HasPrev = true ↔ 1 < page) ∧
    ((handlerPagination totalCount pageSize page).HasNext = true ↔
      page < (handlerPagination totalCount pageSize page).TotalPages) ∧
    (handlerPagination totalCount pageSize page).PrevPage = page - 1 ∧
    (handlerPagination totalCount pageSize page).NextPage = page + 1 ∧
    handlerPagination 12 5 2 =
      { CurrentPage := 2, TotalPages := 3, HasPrev := true, HasNext := true
        PrevPage := 1, NextPage := 3 } := by
  have hTP : (handlerPagination totalCount pageSize page).TotalPages =
      totalCount ⌈/⌉ pageSize := by
    simp [handlerPagination, Nat.ceilDiv_eq_add_pred_div]
  refine ⟨⟨?_, ?_⟩, ?_, ?_, rfl, rfl, by decide⟩
  · rw [hTP]
    exact (ceilDiv_le_iff_le_mul hps).1 le_rfl
  · intro k hk
    rw [hTP]
    exact (ceilDiv_le_iff_le_mul hps).2 hk
  · simp [handlerPagination]
  · simp [handlerPagination]

/-- Witness for C6 at `total_count = 12`, `page_size = 5`,
`current_page = 2`. -/
theorem pagination_metadata_spec_witness :
    handlerPagination 12 5 2 =
      { CurrentPage := 2, TotalPages := 3, HasPrev := true, HasNext := true
        PrevPage := 1, NextPage := 3 } :=
  (pagination_metadata_spec 12 5 2 (by decide) (by decide)).2.2.2.2.2

/-- C7: `DeleteBooks` on an empty id list and
`BulkUpdateBooksSalesStatus` on an empty id list (for either status
value) return success with the store unchanged and send no SQL statement
to the store. -/
theorem empty_ids_noop (rows : List Book) (status : Bool) :
    DeleteBooks rows [] = rows ∧ deleteStmts [] = [] ∧
      BulkUpdateBooksSalesStatus rows [] status = rows ∧
      bulkSalesStmts [] status = [] :=
  ⟨rfl, rfl, rfl, rfl⟩

/-- C8: `UpdateBook` replaces title and has-sales of every row whose id
equals the entity's id (keeping the row's id), leaves all other rows
unchanged (positionally), and when no row matches it returns success with
the table unchanged. -/
theorem updateBook_spec (rows : List Book) (book : Book) :
    (UpdateBook rows book).length = rows.length ∧
    (∀ i : Nat, (UpdateBook rows book)[i]? =
      rows[i]?.map (fun r =>
        if r.ID = book.ID then
          { ID := r.ID, Title := book.Title, HasSales := book.HasSales }
        else r)) ∧
    ((∀ b ∈ rows, b.ID ≠ book.ID) → UpdateBook rows book = rows) := by
  refine ⟨by simp [UpdateBook], ?_, ?_⟩
  · intro i
    simp [UpdateBook, List.getElem?_map, beq_iff_eq]
  · intro h
    have hmap : rows.map (fun r =>
        if r.ID == book.ID then
          { ID := r.ID, Title := book.Title, HasSales := book.HasSales }
        else r) = rows.map id :=
      List.map_congr_left (fun r hr => by simp [h r hr])
    simpa [UpdateBook] using hmap.trans (List.map_id rows)

/-- Witness for C8: updating an entity whose id matches no row leaves the
table unchanged. -/
theorem updateBook_spec_witness :
    UpdateBook [{ ID := 1, Title := "A", HasSales := false }]
        { ID := 2, Title := "B", HasSales := true } =
      [{ ID := 1, Title := "A", HasSales := false }] :=
  (updateBook_spec [{ ID := 1, Title := "A", HasSales := false }]
      { ID := 2, Title := "B", HasSales := true }).2.2 (by decide)

/-- C5: for every call with `limit > 0` and `offset ≥ 0`, `ListBooks`
returns at most `limit` rows, and when the offset is at or past the end of
the match set it returns an empty page together with the correct
`TotalCount` (the full match-set size) rather than an error. -/
theorem listBooks_page_bounds (rows : List Book) (limit offset : Nat)
    (s f : String) (hlim : 0 < limit) :
    (ListBooks rows limit offset s f).Books.length ≤ limit ∧
    ((ListBooks rows limit offset s f).TotalCount ≤ offset →
      (ListBooks rows limit offset s f).Books = [] ∧
      (ListBooks rows limit offset s f).TotalCount =
        (rows.filter (rowMatches s f)).length) := by
  constructor
  · simpa [ListBooks] using
      List.length_take_le limit ((sortById (rows.filter (rowMatches s f))).drop offset)
  · intro h
    refine ⟨?_, rfl⟩
    have hlen : (sortById (rows.filter (rowMatches s f))).length ≤ offset := by
      simpa [ListBooks, length_sortById] using h
    simp [ListBooks, List.drop_eq_nil_of_le hlen]

/-- Witness for C5: offset 3 is past the end of a one-row match set, so
the page is empty. -/
theorem listBooks_page_bounds_witness :
    (ListBooks [{ ID := 1, Title := "Alpha", HasSales := true }] 5 3 "" "all").Books
      = [] :=
  ((listBooks_page_bounds [{ ID := 1, Title := "Alpha", HasSales := true }]
      5 3 "" "all" (by decide)).2 (by decide)).1

/-- C2: `ListBooks` computes `TotalCount` over exactly the same predicate
as the returned page: the count equals the number of rows matching the
built predicate, it is independent of `limit` and `offset`, every book of
the returned page satisfies the same predicate, and at the query-text
level the COUNT query and the paged SELECT share the same WHERE fragment
and the same predicate parameter values (the paged query only appends the
limit and offset parameters). -/
theorem listBooks_count_same_predicate (rows : List Book) (s f : String)
    (limit offset : Nat) :
    (ListBooks rows limit offset s f).TotalCount =
      (rows.filter (rowMatches s f)).length ∧
    (∀ l o, (ListBooks rows l o s f).TotalCount =
      (ListBooks rows limit offset s f).TotalCount) ∧
    (∀ b ∈ (ListBooks rows limit offset s f).Books, rowMatches s f b = true) ∧
    countQuery s f = "SELECT COUNT(*) FROM books" ++ whereStr s f ∧
    listQuery s f = "SELECT id, title, has_sales FROM books" ++ whereStr s f ++
      " ORDER BY id LIMIT ? OFFSET ?" ∧
    listArgs s f limit offset =
      whereArgs s f ++ [.int limit, .int offset] := by
  refine ⟨rfl, fun l o => rfl, ?_, rfl, rfl, rfl⟩
  intro b hb
  simp only [ListBooks] at hb
  have h1 : b ∈ sortById (rows.filter (rowMatches s f)) :=
    List.mem_of_mem_drop (List.mem_of_mem_take hb)
  exact (List.mem_filter.1 (mem_sortById.1 h1)).2

/-- Witness for C2: a book returned on the page satisfies the shared
predicate. -/
theorem listBooks_count_same_predicate_witness :
    rowMatches "et" "all" { ID := 2, Title := "Beta", HasSales := false } = true :=
  (listBooks_count_same_predicate
      [{ ID := 1, Title := "Alpha", HasSales := true },
       { ID := 2, Title := "Beta", HasSales := false }] "et" "all" 5 0).2.2.1
    { ID := 2, Title := "Beta", HasSales := false } (by decide)

/-- C3: for every non-empty id list of length N, the single statements
built by `BulkUpdateBooksSalesStatus` and `DeleteBooks` use an `IN` clause
with exactly N placeholders, bind every id positionally (the status first
for the sales update, then the ids in order), contain no digit characters
in the query text (so no id value is ever concatenated into it), and their
effect touches exactly the rows whose identifier is in the list. -/
theorem bulk_in_clause_parameterized (ids : List Int) (status : Bool)
    (rows : List Book) (h : ids ≠ []) :
    (inClause ids.length).data.count '?' = ids.length ∧
    (bulkSalesQuery ids.length).data.count '?' = ids.length + 1 ∧
    (deleteQuery ids.length).data.count '?' = ids.length ∧
    (∀ c ∈ (bulkSalesQuery ids.length).data, c.isDigit = false) ∧
    (∀ c ∈ (deleteQuery ids.length).data, c.isDigit = false) ∧
    bulkSalesStmts ids status =
      [(bulkSalesQuery ids.length, .bool status :: ids.map SqlValue.int)] ∧
    deleteStmts ids = [(deleteQuery ids.length, ids.map SqlValue.int)] ∧
    (BulkUpdateBooksSalesStatus rows ids status).length = rows.length ∧
    (∀ i : Nat, (BulkUpdateBooksSalesStatus rows ids status)[i]? =
      rows[i]?.map (fun b =>
        if b.ID ∈ ids then { b with HasSales := status } else b)) ∧
    (∀ b : Book, b ∈ DeleteBooks rows ids ↔ b ∈ rows ∧ b.ID ∉ ids) := by
  obtain ⟨m, hm⟩ : ∃ m, ids.length = m + 1 :=
    ⟨ids.length - 1, (Nat.succ_pred_eq_of_pos (List.length_pos.2 h)).symm⟩
  have hq1 : (inClause ids.length).data.count '?' = ids.length := by
    rw [hm]; exact count_q_inClause m
  refine ⟨hq1, ?_, ?_, ?_, ?_, ?_, ?_, ?_, ?_, ?_⟩
  · show (("UPDATE books SET has_sales = ? WHERE id IN " ++
        inClause ids.length).data.count '?') = ids.length + 1
    rw [String.data_append, List.count_append, hq1]
    have h1 : ("UPDATE books SET has_sales = ? WHERE id IN ".data.count '?') = 1 := by
      decide
    omega
  · show (("DELETE FROM books WHERE id IN " ++
        inClause ids.length).data.count '?') = ids.length
    rw [String.data_append, List.count_append, hq1]
    have h1 : ("DELETE FROM books WHERE id IN ".data.count '?') = 0 := by
      decide
    omega
  · intro c hc
    rw [show bulkSalesQuery ids.length =
        "UPDATE books SET has_sales = ? WHERE id IN " ++
          (("(?" ++ repeatStr ",?" (ids.length - 1)) ++ ")") from rfl,
      String.data_append, String.data_append, String.data_append] at hc
    rcases List.mem_append.1 hc with h1 | h1
    · exact noDigit_of_all (by decide) c h1
    · rcases List.mem_append.1 h1 with h2 | h2
      · rcases List.mem_append.1 h2 with h3 | h3
        · exact noDigit_of_all (by decide) c h3
        · exact noDigit_repeatStr _ c h3
      · exact noDigit_of_all (by decide) c h2
  · intro c hc
    rw [show deleteQuery ids.length =
        "DELETE FROM books WHERE id IN " ++
          (("(?" ++ repeatStr ",?" (ids.length - 1)) ++ ")") from rfl,
      String.data_append, String.data_append, String.data_append] at hc
    rcases List.mem_append.1 hc with h1 | h1
    · exact noDigit_of_all (by decide) c h1
    · rcases List.mem_append.1 h1 with h2 | h2
      · rcases List.mem_append.1 h2 with h3 | h3
        · exact noDigit_of_all (by decide) c h3
        · exact noDigit_repeatStr _ c h3
      · exact noDigit_of_all (by decide) c h2
  · simp [bulkSalesStmts, h, bulkSalesArgs]
  · simp [deleteStmts, h, deleteArgs]
  · simp [BulkUpdateBooksSalesStatus, h]
  · intro i
    simp [BulkUpdateBooksSalesStatus, h, List.getElem?_map]
  · intro b
    simp [DeleteBooks, h, List.mem_filter]

/-- Witness for C3 at the two-element id list `[3, 5]`. -/
theorem bulk_in_clause_parameterized_witness :
    (inClause ([3, 5] : List Int).length).data.count '?' =
      ([3, 5] : List Int).length :=
  (bulk_in_clause_parameterized [3, 5] true [] (by decide)).1

/-- C9: `CreateBook` followed by `GetBook` on the returned identifier
yields a book whose title and has-sales flag equal the input's, with the
positive store-assigned identifier (under the store's autoincrement
invariant: the next rowid is positive and held by no existing row). -/
theorem create_get_roundtrip (s : DBState) (book : Book)
    (hfresh : ∀ b ∈ s.rows, b.ID ≠ s.nextId) (hpos : 0 < s.nextId) :
    GetBook (CreateBook s book).1.rows (CreateBook s book).2.ID =
      some (CreateBook s book).2 ∧
    (CreateBook s book).2.Title = book.Title ∧
    (CreateBook s book).2.HasSales = book.HasSales ∧
    0 < (CreateBook s book).2.ID := by
  refine ⟨?_, rfl, rfl, hpos⟩
  show List.find? (fun b => b.ID == s.nextId)
      (s.rows ++ [{ ID := s.nextId, Title := book.Title
                    HasSales := book.HasSales }]) = _
  rw [List.find?_append,
    List.find?_eq_none.2 (fun b hb => by simp [hfresh b hb])]
  simp
  rfl

/-- Witness for C9 on a one-row store with next rowid 2. -/
theorem create_get_roundtrip_witness :
    GetBook
        (CreateBook { rows := [{ ID := 1, Title := "A", HasSales := true }], nextId := 2 }
          { ID := 0, Title := "X", HasSales := false }).1.rows
        (CreateBook { rows := [{ ID := 1, Title := "A", HasSales := true }], nextId := 2 }
          { ID := 0, Title := "X", HasSales := false }).2.ID =
      some (CreateBook { rows := [{ ID := 1, Title := "A", HasSales := true }], nextId := 2 }
          { ID := 0, Title := "X", HasSales := false }).2 :=
  (create_get_roundtrip
      { rows := [{ ID := 1, Title := "A", HasSales := true }], nextId := 2 }
      { ID := 0, Title := "X", HasSales := false }
      (by decide) (by decide)).1

/-- C1: `BulkUpdateBooks` is one atomic transaction: when no statement of
the batch fails, the commit publishes every row update (the fold of the
per-entity UPDATE over the batch) and the call succeeds; when any single
statement fails, the whole batch is rolled back, the store is returned
unchanged, and the error propagates to the caller. -/
theorem bulkUpdateBooks_atomic (rows entities : List Book)
    (failAt : Option Nat) :
    ((∀ i, failAt = some i → entities.length ≤ i) →
      BulkUpdateBooks rows entities failAt =
        (entities.foldl applyBookUpdate rows, .ok ())) ∧
    (∀ i, failAt = some i → i < entities.length →
      BulkUpdateBooks rows entities failAt = (rows, .error ())) := by
  constructor
  · intro h
    unfold BulkUpdateBooks
    rw [bulkLoop_ok failAt entities 0 rows
      (fun j _ hlt heq => absurd (h j heq) (by omega))]
  · intro i hi hlt
    unfold BulkUpdateBooks
    rw [bulkLoop_err failAt entities 0 rows i hi (Nat.zero_le i) (by omega)]

/-- Witness for C1: a failure at the first entity leaves the store
unchanged and surfaces the error. -/
theorem bulkUpdateBooks_atomic_witness :
    BulkUpdateBooks [{ ID := 1, Title := "A", HasSales := false }]
        [{ ID := 1, Title := "B", HasSales := true }] (some 0) =
      ([{ ID := 1, Title := "A", HasSales := false }], .error ()) :=
  (bulkUpdateBooks_atomic [{ ID := 1, Title := "A", HasSales := false }]
      [{ ID := 1, Title := "B", HasSales := true }] (some 0)).2 0 rfl (by decide)

/-- C4: the query builder inside `ListBooks` maps its inputs to predicate
clauses exactly as specified: a non-empty search contributes a
both-sides-fuzzy substring predicate on the title (for wildcard-free
search text), `on_sale` contributes `has_sales = true`, `not_on_sale`
contributes `has_sales = false`, `all` and every unrecognized token
contribute nothing, the clauses combine by logical AND, and an empty
search adds no text predicate. -/
theorem queryBuilder_spec (search filter : String) (b : Book)
    (h1 : '%' ∉ search.data) (h2 : '_' ∉ search.data) :
    rowMatches search filter b =
      (((search == "") || insideMatch search.data b.Title.data) &&
       (if filter == "on_sale" then b.HasSales
        else if filter == "not_on_sale" then !b.HasSales
        else true)) := by
  have hpat : ("%" ++ search ++ "%").data = '%' :: (search.data ++ ['%']) := by
    rw [String.data_append, String.data_append,
      show ("%" : String).data = ['%'] from rfl]
    simp
  by_cases hs : search = ""
  · have h0 : buildClauses search filter =
        (if filter == "on_sale" then [Clause.hasSalesEq true]
         else if filter == "not_on_sale" then [Clause.hasSalesEq false]
         else []) := by
      simp [buildClauses, hs]
    show (buildClauses search filter).all (Clause.holds b) = _
    rw [h0, filterPart_all]
    have hb : (search == "") = true := by simp [hs]
    rw [hb, Bool.true_or, Bool.true_and]
  · have h0 : buildClauses search filter =
        Clause.titleLike ("%" ++ search ++ "%") ::
          (if filter == "on_sale" then [Clause.hasSalesEq true]
           else if filter == "not_on_sale" then [Clause.hasSalesEq false]
           else []) := by
      simp [buildClauses, hs]
    show (buildClauses search filter).all (Clause.holds b) = _
    rw [h0, List.all_cons, filterPart_all]
    have hb : (search == "") = false := by simp [hs]
    rw [hb, Bool.false_or]
    congr 1
    show likeM ("%" ++ search ++ "%").data b.Title.data = _
    rw [hpat]
    exact likeM_both_fuzzy search.data h1 h2 b.Title.data

/-- Witness for C4: search "et" with filter `on_sale` on a book titled
"Beta" with sales. -/
theorem queryBuilder_spec_witness :
    rowMatches "et" "on_sale" { ID := 2, Title := "Beta", HasSales := true }
      = true :=
  (queryBuilder_spec "et" "on_sale"
      { ID := 2, Title := "Beta", HasSales := true }
      (by decide) (by decide)).trans (by decide)

